import Mathlib

/-!
Verification of the Casa Rubia hotel booking system (server.js + script.js).

The backend stores reservations in a SQLite table and answers
`GET /api/reservations` with an optional half-open interval overlap filter
expressed over the TEXT columns `checkIn`/`checkOut` (SQLite compares TEXT
with byte-wise binary collation, which for the ASCII date strings used here
is exactly lexicographic string order, modelled by Lean's `String` order).
`POST /api/reservations` validates JavaScript truthiness of the six body
fields and appends a row with an AUTOINCREMENT id (strictly above every id
ever used, tracked here by `Store.seq`).

The client (script.js) parses the two date inputs as JS `Date`s, rejects
inverted/equal ranges before any network call, and otherwise fetches the
availability with `checkIn`/`checkOut` set to the ISO timestamp strings of
the parsed dates.  The fetch URL is the bare service origin with a query
string and no path, so the request path is `/`.
-/

/-- A row of the `reservations` table (server.js, CREATE TABLE). -/
structure Reservation where
  id : Nat
  roomId : Int
  name : String
  email : String
  phone : String
  checkIn : String
  checkOut : String
  created : String
deriving Repr, DecidableEq

/-- The reservation store: the table rows in rowid order plus the
AUTOINCREMENT sequence value (never below any id ever assigned). -/
structure Store where
  rows : List Reservation
  seq : Nat
deriving Repr, DecidableEq

/-- JavaScript truthiness of an optional string value (`undefined` and the
empty string are falsy). -/
def strTruthy : Option String → Bool
  | none => false
  | some s => !(s == "")

/-- JavaScript truthiness of an optional number value (`undefined` and `0`
are falsy). -/
def intTruthy : Option Int → Bool
  | none => false
  | some n => !(n == 0)

/-- SQLite compares TEXT values with the default BINARY collation, a
byte-wise `memcmp`; on UTF-8 encoded strings that order coincides with the
lexicographic order of the code points, computed here structurally. -/
def charListLtb : List Char → List Char → Bool
  | _, [] => false
  | [], _ :: _ => true
  | a :: as, b :: bs =>
    decide (a.toNat < b.toNat) || (a.toNat == b.toNat && charListLtb as bs)

/-- Strict TEXT comparison of two strings (SQLite `<` on TEXT columns). -/
def strLtb (s t : String) : Bool :=
  charListLtb s.data t.data

/-- Non-strict TEXT comparison (SQLite `<=` on TEXT columns). -/
def strLeb (s t : String) : Bool :=
  !(strLtb t s)

/-- The SQL overlap filter of `GET /api/reservations`:
`NOT (checkOut <= ? OR checkIn >= ?)` with the two parameters bound to the
`checkIn` and `checkOut` query values, compared as TEXT. -/
def overlapCond (qIn qOut : String) (r : Reservation) : Bool :=
  !(strLeb r.checkOut qIn || strLeb qOut r.checkIn)

/-- `GET /api/reservations` (server.js lines 63-78): when both query
parameters are truthy the rows are filtered by `overlapCond`, otherwise all
rows are returned. -/
def getReservations (s : Store) (qIn qOut : Option String) : List Reservation :=
  if strTruthy qIn && strTruthy qOut then
    s.rows.filter (overlapCond (qIn.getD "") (qOut.getD ""))
  else
    s.rows

/-- The JSON body of `POST /api/reservations`; absent fields are `none`. -/
structure PostBody where
  roomId : Option Int
  name : Option String
  email : Option String
  phone : Option String
  checkIn : Option String
  checkOut : Option String
deriving Repr, DecidableEq

/-- The truthiness guard of the POST handler:
`if (!roomId || !name || !email || !phone || !checkIn || !checkOut)`. -/
def allTruthy (b : PostBody) : Bool :=
  intTruthy b.roomId && strTruthy b.name && strTruthy b.email &&
    strTruthy b.phone && strTruthy b.checkIn && strTruthy b.checkOut

/-- The row appended by a successful insert, with the store-assigned id and
the server-assigned creation timestamp. -/
def insertedRow (b : PostBody) (newId : Nat) (created : String) : Reservation :=
  { id := newId
    roomId := b.roomId.getD 0
    name := b.name.getD ""
    email := b.email.getD ""
    phone := b.phone.getD ""
    checkIn := b.checkIn.getD ""
    checkOut := b.checkOut.getD ""
    created := created }

/-- The three possible responses of the POST handler. -/
inductive PostResponse where
  | badRequest : PostResponse
  | ok : Nat → PostResponse
  | serverError : PostResponse
deriving Repr, DecidableEq

/-- `POST /api/reservations` (server.js lines 82-98): 400 when any field is
falsy; otherwise the row is inserted (id = next AUTOINCREMENT value) and 200
is returned with the new id, or 500 when the storage step fails (`dbOk`
models whether `stmt.run` succeeds). -/
def postReservation (s : Store) (b : PostBody) (created : String) (dbOk : Bool) :
    PostResponse × Store :=
  if allTruthy b then
    if dbOk then
      (.ok (s.seq + 1), ⟨s.rows ++ [insertedRow b (s.seq + 1) created], s.seq + 1⟩)
    else
      (.serverError, s)
  else
    (.badRequest, s)

/-- A hotel room as defined in the static catalog. -/
structure Room where
  id : Int
  name : String
  type : String
  ac : Bool
  price : Nat
  capacity : Nat
deriving Repr, DecidableEq

/-- The fixed catalog of twelve rooms (server.js lines 40-53). -/
def rooms : List Room :=
  [ ⟨1, "Habitación 1", "Con ventilador", false, 30000, 2⟩,
    ⟨2, "Habitación 2", "Con ventilador", false, 30000, 2⟩,
    ⟨3, "Habitación 3", "Con ventilador", false, 30000, 2⟩,
    ⟨4, "Habitación 4", "Con ventilador", false, 30000, 2⟩,
    ⟨5, "Habitación 5", "Con ventilador", false, 30000, 2⟩,
    ⟨6, "Habitación 6", "Con ventilador", false, 30000, 2⟩,
    ⟨7, "Habitación 7", "Con aire acondicionado", true, 60000, 2⟩,
    ⟨8, "Habitación 8", "Con aire acondicionado", true, 60000, 2⟩,
    ⟨9, "Habitación 9", "Con aire acondicionado", true, 60000, 2⟩,
    ⟨10, "Habitación 10", "Con aire acondicionado", true, 60000, 2⟩,
    ⟨11, "Habitación 11", "Con aire acondicionado", true, 60000, 2⟩,
    ⟨12, "Habitación 12", "Con aire acondicionado", true, 60000, 2⟩ ]

/-- `GET /api/rooms` (server.js lines 56-58): serves the static catalog,
independent of the reservation store. -/
def getRooms (_ : Store) : List Room :=
  rooms

/-- A parsed JavaScript `Date`: its epoch timestamp (used by the `<=`
comparisons of script.js) together with its `toISOString()` rendering (sent
as the query parameters).  An invalid date (`isNaN`) is modelled as `none`
at the use sites. -/
structure JsDateVal where
  ts : Int
  iso : String
deriving Repr, DecidableEq

/-- The GET request issued by the availability refresh: the request path and
the two query parameters. -/
structure GetRequest where
  path : String
  checkIn : String
  checkOut : String
deriving Repr, DecidableEq

/-- What the server sends back for a GET request: the reservations JSON for
the `/api/reservations` route, or the HTML 404 page for an unknown path
(express has no route for `/`; `response.json()` then throws on the
client). -/
inductive ServerReply where
  | jsonList : List Reservation → ServerReply
  | notFound : ServerReply
deriving Repr, DecidableEq

/-- Routing of a GET request by the express app in server.js: only
`/api/reservations` produces reservation JSON. -/
def serverGetAt (s : Store) (path : String) (qIn qOut : Option String) : ServerReply :=
  if path == "/api/reservations" then .jsonList (getReservations s qIn qOut)
  else .notFound

/-- The availability fetch URL in script.js line 115 is the bare service
origin followed by the query string, with no path component, so the request
path is `/`. -/
def availFetchPath : String := "/"

/-- Outcome of one `updateAvailability` run: an early return on unparseable
dates, the all-rows "Fechas no válidas" painting, a per-room painting
computed from the reservations JSON, or the all-rows "Error" painting from
the catch block. -/
inductive AvailOutcome where
  | noop : AvailOutcome
  | invalidDates : AvailOutcome
  | painted : List Reservation → AvailOutcome
  | errorPaint : AvailOutcome
deriving Repr, DecidableEq

/-- `updateAvailability` (script.js lines 97-135), paired with the GET
request it issues, if any: unparseable dates return silently; an inverted or
empty range paints every row invalid without querying; otherwise the parsed
dates are serialised with `toISOString()` and sent to the availability URL,
painting rows from the JSON on success and painting "Error" when the
response cannot be parsed as JSON (e.g. a 404 page). -/
def updateAvailability (s : Store) (cin cout : Option JsDateVal) :
    AvailOutcome × Option GetRequest :=
  match cin, cout with
  | some din, some dout =>
    if dout.ts ≤ din.ts then (.invalidDates, none)
    else
      match serverGetAt s availFetchPath (some din.iso) (some dout.iso) with
      | .jsonList rs => (.painted rs, some ⟨availFetchPath, din.iso, dout.iso⟩)
      | .notFound => (.errorPaint, some ⟨availFetchPath, din.iso, dout.iso⟩)
  | _, _ => (.noop, none)

/-- Whether the refresh outcome shows a given room as "Disponible": only a
successful painting without a returned reservation for that room does. -/
def roomShownAvailable (o : AvailOutcome) (roomId : Int) : Bool :=
  match o with
  | .painted rs => !(rs.any (fun r => r.roomId == roomId))
  | _ => false

/-- The JavaScript comparison `checkOutDate <= checkInDate` on two `Date`
values: false whenever either side is an invalid date (NaN). -/
def jsDateLe (x y : Option JsDateVal) : Bool :=
  match x, y with
  | some a, some b => decide (a.ts ≤ b.ts)
  | _, _ => false

/-- `openReservationModal` (script.js lines 138-154): the modal opens only
when both raw input values are non-empty and the parsed check-out is not
`<=` the parsed check-in. -/
def openReservationModal (inVal outVal : String) (din dout : Option JsDateVal) : Bool :=
  if inVal == "" || outVal == "" || jsDateLe dout din then false else true

/-- The store of the C2 scenario: one reservation for room 1 over
`[2024-06-01, 2024-06-03)`, inserted with the bare `YYYY-MM-DD` form
values. -/
def scenarioStore : Store :=
  ⟨[⟨1, 1, "Ana", "ana@example.com", "3001234567",
      "2024-06-01", "2024-06-03", "2024-05-20 10:00:00"⟩], 1⟩

/-- The ASCII character of a decimal digit (`'0'` has code point 48). -/
def digitChar (n : Nat) : Char := Char.ofNat (48 + n)

/-- The fixed-length `YYYY-MM-DD` rendering of a calendar date, the common
format of the form values stored by the client and of the date part of the
`toISOString()` timestamps it queries with. -/
def fmtDate (y m d : Nat) : String :=
  ⟨[digitChar (y / 1000), digitChar (y / 100 % 10), digitChar (y / 10 % 10),
    digitChar (y % 10), '-', digitChar (m / 10), digitChar (m % 10), '-',
    digitChar (d / 10), digitChar (d % 10)]⟩

/-- A numeric encoding of a calendar date whose `Nat` order is the
chronological order (for month and day below 100). -/
def dateVal (y m d : Nat) : Nat := y * 10000 + m * 100 + d

/-!  Bridge between the executable byte-wise TEXT comparison and the
lexicographic `String` order of Mathlib. -/

theorem charToNat_lt_iff {a b : Char} : a.toNat < b.toNat ↔ a < b :=
  Iff.rfl

theorem charToNat_eq_iff {a b : Char} : a.toNat = b.toNat ↔ a = b :=
  ⟨fun h => Char.ext (UInt32.toNat.inj h), fun h => by rw [h]⟩

theorem lex_cons_iff {α : Type} [LinearOrder α] {a b : α} {l m : List α} :
    List.Lex (· < ·) (a :: l) (b :: m) ↔ a < b ∨ (a = b ∧ List.Lex (· < ·) l m) := by
  constructor
  · intro h
    cases h with
    | rel h => exact Or.inl h
    | cons h => exact Or.inr ⟨rfl, h⟩
  · rintro (h | ⟨rfl, h⟩)
    · exact List.Lex.rel h
    · exact List.Lex.cons h

theorem charListLtb_iff :
    ∀ l m : List Char, charListLtb l m = true ↔ List.Lex (· < ·) l m := by
  intro l
  induction l with
  | nil =>
    intro m
    cases m with
    | nil => simp [charListLtb]
    | cons b bs => simpa [charListLtb] using List.Lex.nil
  | cons a as ih =>
    intro m
    cases m with
    | nil => simp [charListLtb]
    | cons b bs =>
      simp only [charListLtb, Bool.or_eq_true, Bool.and_eq_true, decide_eq_true_eq,
        beq_iff_eq, ih bs, lex_cons_iff, charToNat_lt_iff, charToNat_eq_iff]

theorem strLtb_iff (s t : String) : strLtb s t = true ↔ s < t := by
  rw [String.lt_iff_toList_lt]
  exact charListLtb_iff s.data t.data

theorem strLeb_iff (s t : String) : strLeb s t = true ↔ s ≤ t := by
  rw [strLeb, Bool.not_eq_true']
  rw [← Bool.not_eq_true, strLtb_iff, not_lt]

theorem overlapCond_iff (qIn qOut : String) (r : Reservation) :
    overlapCond qIn qOut r = true ↔ ¬(r.checkOut ≤ qIn ∨ r.checkIn ≥ qOut) := by
  rw [overlapCond, Bool.not_eq_true', Bool.or_eq_false_iff]
  rw [← Bool.not_eq_true (strLeb r.checkOut qIn), ← Bool.not_eq_true (strLeb qOut r.checkIn)]
  rw [strLeb_iff, strLeb_iff, not_or]

theorem strLeb_false_iff (s t : String) : strLeb s t = false ↔ ¬s ≤ t := by
  rw [← Bool.not_eq_true, strLeb_iff]

/-- Membership in the filtered query result, for truthy query parameters. -/
theorem mem_getReservations_iff (s : Store) (a b : String) (ha : a ≠ "") (hb : b ≠ "")
    (r : Reservation) :
    r ∈ getReservations s (some a) (some b) ↔
      r ∈ s.rows ∧ ¬(r.checkOut ≤ a ∨ b ≤ r.checkIn) := by
  have hta : strTruthy (some a) = true := by simp [strTruthy, ha]
  have htb : strTruthy (some b) = true := by simp [strTruthy, hb]
  rw [getReservations, hta, htb]
  simp only [Bool.and_self, if_true, Option.getD_some, List.mem_filter, overlapCond_iff,
    ge_iff_le]

/-- C1: for every store state and every valid range `[a, b)` with `a < b`,
the reservations query with `checkIn = a`, `checkOut = b` returns exactly
the stored reservations `r` satisfying
`NOT (r.checkOut <= a OR r.checkIn >= b)`; in particular a reservation with
`checkOut = a` or `checkIn = b` is not returned. -/
theorem query_returns_exactly_overlapping (s : Store) (a b : String)
    (ha : a ≠ "") (hb : b ≠ "") (hab : a < b) (r : Reservation) :
    r ∈ getReservations s (some a) (some b) ↔
      r ∈ s.rows ∧ ¬(r.checkOut ≤ a ∨ r.checkIn ≥ b) :=
  mem_getReservations_iff s a b ha hb r

/-- C1 witness: a store with one reservation over `[2024-06-01, 2024-06-03)`
queried with the range `[2024-06-02, 2024-06-04)`. -/
theorem query_returns_exactly_overlapping_witness :
    (⟨1, 1, "n", "e", "p", "2024-06-01", "2024-06-03", "t"⟩ : Reservation) ∈
        getReservations ⟨[⟨1, 1, "n", "e", "p", "2024-06-01", "2024-06-03", "t"⟩], 1⟩
          (some "2024-06-02") (some "2024-06-04") ↔
      (⟨1, 1, "n", "e", "p", "2024-06-01", "2024-06-03", "t"⟩ : Reservation) ∈
          [(⟨1, 1, "n", "e", "p", "2024-06-01", "2024-06-03", "t"⟩ : Reservation)] ∧
        ¬(("2024-06-03" : String) ≤ "2024-06-02" ∨ ("2024-06-01" : String) ≥ "2024-06-04") :=
  query_returns_exactly_overlapping ⟨[⟨1, 1, "n", "e", "p", "2024-06-01", "2024-06-03", "t"⟩], 1⟩
    "2024-06-02" "2024-06-04" (by decide) (by decide)
    ((strLtb_iff "2024-06-02" "2024-06-04").mp (by decide)) _

/-- C10: when either query parameter is absent or the empty string, the
overlap filter is not applied and every stored reservation is returned. -/
theorem query_missing_param_returns_all (s : Store) (qIn qOut : Option String)
    (h : strTruthy qIn = false ∨ strTruthy qOut = false) :
    getReservations s qIn qOut = s.rows := by
  rcases h with h | h <;> simp [getReservations, h]

/-- C10 witness: only `checkIn` supplied. -/
theorem query_missing_param_returns_all_witness :
    getReservations ⟨[⟨1, 1, "n", "e", "p", "2024-06-01", "2024-06-03", "t"⟩], 1⟩
        (some "2024-06-02") none =
      [(⟨1, 1, "n", "e", "p", "2024-06-01", "2024-06-03", "t"⟩ : Reservation)] :=
  query_missing_param_returns_all _ (some "2024-06-02") none (Or.inr (by decide))

/-- C9: `GET /api/rooms` is a constant function of the reservation store,
always returning the same fixed catalog: twelve rooms with ids 1..12, the
first six with `ac = false` at price 30000, the last six with `ac = true`
at price 60000, all of capacity 2; no operation mutates the catalog. -/
theorem rooms_catalog_constant :
    (∀ s s' : Store, getRooms s = getRooms s') ∧
    (∀ s : Store, getRooms s = rooms) ∧
    rooms.length = 12 ∧
    rooms.map Room.id = [1, 2, 3, 4, 5, 6, 7, 8, 9, 10, 11, 12] ∧
    (rooms.filter (fun r => !r.ac)).length = 6 ∧
    (rooms.filter (fun r => r.ac)).length = 6 ∧
    (∀ r ∈ rooms, (r.ac = false → r.price = 30000) ∧ (r.ac = true → r.price = 60000) ∧
      r.capacity = 2) :=
  ⟨fun _ _ => rfl, fun _ => rfl, by decide, by decide, by decide, by decide, by decide⟩

/-- C5: a POST with any of the six body fields missing yields 400 and
leaves the store unchanged; with all fields present (truthy) it yields 200
with the newly assigned id when storage succeeds, and 500 with the store
unchanged when storage fails. -/
theorem post_validation_and_statuses (s : Store) (b : PostBody) (created : String) :
    ((b.roomId = none ∨ b.name = none ∨ b.email = none ∨ b.phone = none ∨
        b.checkIn = none ∨ b.checkOut = none) →
      ∀ dbOk : Bool, postReservation s b created dbOk = (.badRequest, s)) ∧
    (allTruthy b = true →
      postReservation s b created true =
        (.ok (s.seq + 1), ⟨s.rows ++ [insertedRow b (s.seq + 1) created], s.seq + 1⟩)) ∧
    (allTruthy b = true → postReservation s b created false = (.serverError, s)) := by
  refine ⟨?_, ?_, ?_⟩
  · intro h dbOk
    have hfalse : allTruthy b = false := by
      rcases h with h | h | h | h | h | h <;> simp [allTruthy, intTruthy, strTruthy, h]
    simp [postReservation, hfalse]
  · intro h
    simp [postReservation, h]
  · intro h
    simp [postReservation, h]

/-- C5 witness: POST with the `email` field missing is rejected with 400
and no row is inserted. -/
theorem post_validation_and_statuses_witness :
    postReservation ⟨[], 0⟩ ⟨some 1, some "Ana", none, some "3001234567",
        some "2024-06-01", some "2024-06-03"⟩ "2024-05-20" true =
      (.badRequest, ⟨[], 0⟩) :=
  (post_validation_and_statuses ⟨[], 0⟩
      ⟨some 1, some "Ana", none, some "3001234567", some "2024-06-01", some "2024-06-03"⟩
      "2024-05-20").1 (Or.inr (Or.inr (Or.inl rfl))) true

/-- C4: the insert path performs no overlap check: two successive complete
POSTs for the same room over overlapping `[checkIn, checkOut)` ranges both
succeed, each appending one row, and the two rows receive distinct ids. -/
theorem post_no_overlap_check (s : Store) (b1 b2 : PostBody) (c1 c2 : String)
    (ci1 co1 ci2 co2 : String)
    (h1 : allTruthy b1 = true) (h2 : allTruthy b2 = true)
    (hroom : b1.roomId = b2.roomId)
    (hci1 : b1.checkIn = some ci1) (hco1 : b1.checkOut = some co1)
    (hci2 : b2.checkIn = some ci2) (hco2 : b2.checkOut = some co2)
    (hoverlap : ¬(co1 ≤ ci2 ∨ co2 ≤ ci1)) :
    (postReservation s b1 c1 true).1 = .ok (s.seq + 1) ∧
    (postReservation (postReservation s b1 c1 true).2 b2 c2 true).1 = .ok (s.seq + 2) ∧
    (postReservation (postReservation s b1 c1 true).2 b2 c2 true).2.rows =
      s.rows ++ [insertedRow b1 (s.seq + 1) c1, insertedRow b2 (s.seq + 2) c2] ∧
    s.seq + 1 ≠ s.seq + 2 := by
  refine ⟨by simp [postReservation, h1], by simp [postReservation, h1, h2], ?_, by omega⟩
  simp [postReservation, h1, h2]

/-- C4 witness: two POSTs for room 1 over the overlapping ranges
`[2024-06-01, 2024-06-03)` and `[2024-06-02, 2024-06-04)`. -/
theorem post_no_overlap_check_witness :
    (postReservation ⟨[], 0⟩ ⟨some 1, some "Ana", some "a@b.c", some "300",
        some "2024-06-01", some "2024-06-03"⟩ "t1" true).1 = .ok 1 ∧
    (postReservation (postReservation ⟨[], 0⟩ ⟨some 1, some "Ana", some "a@b.c", some "300",
        some "2024-06-01", some "2024-06-03"⟩ "t1" true).2
      ⟨some 1, some "Bea", some "b@b.c", some "301",
        some "2024-06-02", some "2024-06-04"⟩ "t2" true).1 = .ok 2 ∧
    (postReservation (postReservation ⟨[], 0⟩ ⟨some 1, some "Ana", some "a@b.c", some "300",
        some "2024-06-01", some "2024-06-03"⟩ "t1" true).2
      ⟨some 1, some "Bea", some "b@b.c", some "301",
        some "2024-06-02", some "2024-06-04"⟩ "t2" true).2.rows =
      [] ++ [insertedRow ⟨some 1, some "Ana", some "a@b.c", some "300",
               some "2024-06-01", some "2024-06-03"⟩ 1 "t1",
             insertedRow ⟨some 1, some "Bea", some "b@b.c", some "301",
               some "2024-06-02", some "2024-06-04"⟩ 2 "t2"] ∧
    (0 : Nat) + 1 ≠ 0 + 2 :=
  post_no_overlap_check ⟨[], 0⟩
    ⟨some 1, some "Ana", some "a@b.c", some "300", some "2024-06-01", some "2024-06-03"⟩
    ⟨some 1, some "Bea", some "b@b.c", some "301", some "2024-06-02", some "2024-06-04"⟩
    "t1" "t2" "2024-06-01" "2024-06-03" "2024-06-02" "2024-06-04"
    (by decide) (by decide) rfl rfl rfl rfl rfl
    (fun h => h.elim
      (fun h' => absurd ((strLeb_false_iff "2024-06-03" "2024-06-02").mp (by decide)) (fun c => c h'))
      (fun h' => absurd ((strLeb_false_iff "2024-06-04" "2024-06-01").mp (by decide)) (fun c => c h')))

/-- C7: reservation ids are store-assigned, unique, and ascending: from any
store whose rows all have ids at most the AUTOINCREMENT sequence value (the
invariant SQLite maintains), a successful insert returns the id
`seq + 1`, strictly greater than every id already present, and the
invariant holds again afterwards, so the property propagates along any
sequence of inserts. -/
theorem insert_id_unique_ascending (s : Store) (b : PostBody) (created : String)
    (hinv : ∀ r ∈ s.rows, r.id ≤ s.seq) (hb : allTruthy b = true) :
    (postReservation s b created true).1 = .ok (s.seq + 1) ∧
    (∀ r ∈ s.rows, r.id < s.seq + 1) ∧
    (∀ r ∈ (postReservation s b created true).2.rows,
        r.id ≤ (postReservation s b created true).2.seq) := by
  have hpost : (postReservation s b created true).2 =
      ⟨s.rows ++ [insertedRow b (s.seq + 1) created], s.seq + 1⟩ := by
    simp [postReservation, hb]
  refine ⟨by simp [postReservation, hb], fun r hr => by have := hinv r hr; omega, ?_⟩
  rw [hpost]
  intro r hr
  rcases List.mem_append.mp hr with hr | hr
  · exact le_trans (hinv r hr) (Nat.le_succ _)
  · rw [List.mem_singleton.mp hr]
    exact Nat.le_refl _

/-- C7 witness: inserting into a store already holding id 5. -/
theorem insert_id_unique_ascending_witness :
    (postReservation ⟨[⟨5, 2, "n", "e", "p", "2024-06-01", "2024-06-03", "t"⟩], 5⟩
        ⟨some 1, some "Ana", some "a@b.c", some "300",
          some "2024-06-01", some "2024-06-03"⟩ "t1" true).1 = .ok 6 ∧
    (∀ r ∈ [(⟨5, 2, "n", "e", "p", "2024-06-01", "2024-06-03", "t"⟩ : Reservation)],
        r.id < 6) ∧
    (∀ r ∈ (postReservation ⟨[⟨5, 2, "n", "e", "p", "2024-06-01", "2024-06-03", "t"⟩], 5⟩
        ⟨some 1, some "Ana", some "a@b.c", some "300",
          some "2024-06-01", some "2024-06-03"⟩ "t1" true).2.rows,
        r.id ≤ (postReservation ⟨[⟨5, 2, "n", "e", "p", "2024-06-01", "2024-06-03", "t"⟩], 5⟩
          ⟨some 1, some "Ana", some "a@b.c", some "300",
            some "2024-06-01", some "2024-06-03"⟩ "t1" true).2.seq) :=
  insert_id_unique_ascending ⟨[⟨5, 2, "n", "e", "p", "2024-06-01", "2024-06-03", "t"⟩], 5⟩
    ⟨some 1, some "Ana", some "a@b.c", some "300", some "2024-06-01", some "2024-06-03"⟩
    "t1" (by decide) (by decide)

/-- C3: after inserting a reservation over `[ci, co)` with `ci < co`, any
valid query range `[a1, b1)` fully containing it returns the inserted row,
and any valid range `[a2, b2)` disjoint from it does not. -/
theorem insert_query_roundtrip (s : Store) (b : PostBody) (created ci co : String)
    (hb : allTruthy b = true)
    (hci : b.checkIn = some ci) (hco : b.checkOut = some co) (hcico : ci < co)
    (a1 b1 : String) (ha1 : a1 ≠ "") (hb1 : b1 ≠ "") (hv1 : a1 < b1)
    (hcont1 : a1 ≤ ci) (hcont2 : co ≤ b1)
    (a2 b2 : String) (ha2 : a2 ≠ "") (hb2 : b2 ≠ "") (hv2 : a2 < b2)
    (hdisj : b2 ≤ ci ∨ co ≤ a2) :
    insertedRow b (s.seq + 1) created ∈
        getReservations (postReservation s b created true).2 (some a1) (some b1) ∧
    insertedRow b (s.seq + 1) created ∉
        getReservations (postReservation s b created true).2 (some a2) (some b2) := by
  have hrowIn : (insertedRow b (s.seq + 1) created).checkIn = ci := by
    simp [insertedRow, hci]
  have hrowOut : (insertedRow b (s.seq + 1) created).checkOut = co := by
    simp [insertedRow, hco]
  have hmem : insertedRow b (s.seq + 1) created ∈ (postReservation s b created true).2.rows := by
    simp [postReservation, hb]
  constructor
  · rw [mem_getReservations_iff _ _ _ ha1 hb1]
    refine ⟨hmem, ?_⟩
    rw [hrowIn, hrowOut, not_or]
    constructor
    · exact not_le.mpr (lt_of_le_of_lt hcont1 hcico)
    · exact not_le.mpr (lt_of_lt_of_le hcico hcont2)
  · rw [mem_getReservations_iff _ _ _ ha2 hb2]
    rintro ⟨-, hno⟩
    apply hno
    rw [hrowIn, hrowOut]
    rcases hdisj with h | h
    · exact Or.inr h
    · exact Or.inl h

/-- C3 witness: insert over `[2024-06-10, 2024-06-12)`, then query the
containing range `[2024-06-09, 2024-06-13)` and the disjoint range
`[2024-06-12, 2024-06-14)`. -/
theorem insert_query_roundtrip_witness :
    insertedRow ⟨some 1, some "Ana", some "a@b.c", some "300",
        some "2024-06-10", some "2024-06-12"⟩ 1 "t" ∈
      getReservations (postReservation ⟨[], 0⟩ ⟨some 1, some "Ana", some "a@b.c", some "300",
        some "2024-06-10", some "2024-06-12"⟩ "t" true).2
        (some "2024-06-09") (some "2024-06-13") ∧
    insertedRow ⟨some 1, some "Ana", some "a@b.c", some "300",
        some "2024-06-10", some "2024-06-12"⟩ 1 "t" ∉
      getReservations (postReservation ⟨[], 0⟩ ⟨some 1, some "Ana", some "a@b.c", some "300",
        some "2024-06-10", some "2024-06-12"⟩ "t" true).2
        (some "2024-06-12") (some "2024-06-14") :=
  insert_query_roundtrip ⟨[], 0⟩
    ⟨some 1, some "Ana", some "a@b.c", some "300", some "2024-06-10", some "2024-06-12"⟩
    "t" "2024-06-10" "2024-06-12" (by decide) rfl rfl
    ((strLtb_iff "2024-06-10" "2024-06-12").mp (by decide))
    "2024-06-09" "2024-06-13" (by decide) (by decide)
    ((strLtb_iff "2024-06-09" "2024-06-13").mp (by decide))
    ((strLeb_iff "2024-06-09" "2024-06-10").mp (by decide))
    ((strLeb_iff "2024-06-12" "2024-06-13").mp (by decide))
    "2024-06-12" "2024-06-14" (by decide) (by decide)
    ((strLtb_iff "2024-06-12" "2024-06-14").mp (by decide))
    (Or.inr ((strLeb_iff "2024-06-12" "2024-06-12").mp (by decide)))

/-- C8: for every parsed date pair with `checkOut <= checkIn` (equality
included), the availability refresh paints every row "Fechas no válidas"
and issues no request (the second component is `none`), and the reservation
modal refuses to open. -/
theorem client_rejects_inverted_range (s : Store) (din dout : JsDateVal)
    (h : dout.ts ≤ din.ts) (inVal outVal : String) :
    updateAvailability s (some din) (some dout) = (.invalidDates, none) ∧
    openReservationModal inVal outVal (some din) (some dout) = false := by
  constructor
  · simp [updateAvailability, h]
  · simp [openReservationModal, jsDateLe, h]

/-- C8 witness: equal check-in and check-out timestamps. -/
theorem client_rejects_inverted_range_witness :
    updateAvailability ⟨[], 0⟩ (some ⟨1717372800000, "2024-06-03T00:00:00.000Z"⟩)
        (some ⟨1717372800000, "2024-06-03T00:00:00.000Z"⟩) = (.invalidDates, none) ∧
    openReservationModal "2024-06-03" "2024-06-03"
        (some ⟨1717372800000, "2024-06-03T00:00:00.000Z"⟩)
        (some ⟨1717372800000, "2024-06-03T00:00:00.000Z"⟩) = false :=
  client_rejects_inverted_range ⟨[], 0⟩ ⟨1717372800000, "2024-06-03T00:00:00.000Z"⟩
    ⟨1717372800000, "2024-06-03T00:00:00.000Z"⟩ (by decide) "2024-06-03" "2024-06-03"

/-- C2: the claim fails on the code.  The availability fetch goes to the
service root (script.js line 115 builds the URL without the
`/api/reservations` path), a route server.js does not define, so the
refresh for the window `[2024-06-03, 2024-06-05)` ends in the catch branch
painting every row "Error": room 1 is not marked available even though no
stored reservation for room 1 satisfies the overlap condition for that
window (the last two conjuncts), contrary to the claimed iff. -/
theorem availability_refresh_hits_wrong_route :
    updateAvailability scenarioStore
        (some ⟨1717372800000, "2024-06-03T00:00:00.000Z"⟩)
        (some ⟨1717545600000, "2024-06-05T00:00:00.000Z"⟩) =
      (.errorPaint, some ⟨"/", "2024-06-03T00:00:00.000Z", "2024-06-05T00:00:00.000Z"⟩) ∧
    roomShownAvailable (updateAvailability scenarioStore
        (some ⟨1717372800000, "2024-06-03T00:00:00.000Z"⟩)
        (some ⟨1717545600000, "2024-06-05T00:00:00.000Z"⟩)).1 1 = false ∧
    (∀ r ∈ scenarioStore.rows, r.roomId = 1 →
      (r.checkOut ≤ "2024-06-03T00:00:00.000Z" ∨ r.checkIn ≥ "2024-06-05T00:00:00.000Z")) ∧
    getReservations scenarioStore (some "2024-06-03T00:00:00.000Z")
        (some "2024-06-05T00:00:00.000Z") = [] := by
  refine ⟨by decide, by decide, ?_, by decide⟩
  intro r hr _
  rcases List.mem_singleton.mp hr with rfl
  exact Or.inl ((strLeb_iff "2024-06-03" "2024-06-03T00:00:00.000Z").mp (by decide))

theorem digitChar_lt_iff {a b : Nat} (ha : a < 10) (hb : b < 10) :
    digitChar a < digitChar b ↔ a < b := by
  interval_cases a <;> interval_cases b <;> decide

theorem digitChar_eq_iff {a b : Nat} (ha : a < 10) (hb : b < 10) :
    digitChar a = digitChar b ↔ a = b := by
  interval_cases a <;> interval_cases b <;> decide

theorem fmtDate_lt_iff {y1 m1 d1 y2 m2 d2 : Nat}
    (hy1 : y1 < 10000) (hm1 : m1 < 100) (hd1 : d1 < 100)
    (hy2 : y2 < 10000) (hm2 : m2 < 100) (hd2 : d2 < 100) :
    fmtDate y1 m1 d1 < fmtDate y2 m2 d2 ↔ dateVal y1 m1 d1 < dateVal y2 m2 d2 := by
  rw [String.lt_iff_toList_lt]
  show List.Lex (· < ·)
      [digitChar (y1 / 1000), digitChar (y1 / 100 % 10), digitChar (y1 / 10 % 10),
        digitChar (y1 % 10), '-', digitChar (m1 / 10), digitChar (m1 % 10), '-',
        digitChar (d1 / 10), digitChar (d1 % 10)]
      [digitChar (y2 / 1000), digitChar (y2 / 100 % 10), digitChar (y2 / 10 % 10),
        digitChar (y2 % 10), '-', digitChar (m2 / 10), digitChar (m2 % 10), '-',
        digitChar (d2 / 10), digitChar (d2 % 10)] ↔
    dateVal y1 m1 d1 < dateVal y2 m2 d2
  simp only [lex_cons_iff, List.Lex.not_nil_right, lt_self_iff_false, eq_self_iff_true,
    false_or, true_and, and_false, or_false]
  rw [digitChar_lt_iff (by omega) (by omega), digitChar_eq_iff (by omega) (by omega),
    digitChar_lt_iff (by omega) (by omega), digitChar_eq_iff (by omega) (by omega),
    digitChar_lt_iff (by omega) (by omega), digitChar_eq_iff (by omega) (by omega),
    digitChar_lt_iff (by omega) (by omega), digitChar_eq_iff (by omega) (by omega),
    digitChar_lt_iff (by omega) (by omega), digitChar_eq_iff (by omega) (by omega),
    digitChar_lt_iff (by omega) (by omega), digitChar_eq_iff (by omega) (by omega),
    digitChar_lt_iff (by omega) (by omega), digitChar_eq_iff (by omega) (by omega),
    digitChar_lt_iff (by omega) (by omega)]
  simp only [dateVal]
  omega

theorem fmtDate_le_iff {y1 m1 d1 y2 m2 d2 : Nat}
    (hy1 : y1 < 10000) (hm1 : m1 < 100) (hd1 : d1 < 100)
    (hy2 : y2 < 10000) (hm2 : m2 < 100) (hd2 : d2 < 100) :
    fmtDate y1 m1 d1 ≤ fmtDate y2 m2 d2 ↔ dateVal y1 m1 d1 ≤ dateVal y2 m2 d2 := by
  rw [← not_lt, ← not_lt (a := dateVal y2 m2 d2),
    fmtDate_lt_iff hy2 hm2 hd2 hy1 hm1 hd1]

theorem lex_append_cons (l : List Char) (c : Char) (cs : List Char) :
    List.Lex (· < ·) l (l ++ c :: cs) := by
  induction l with
  | nil => exact List.Lex.nil
  | cons a as ih => exact List.Lex.cons ih

theorem str_lt_append_of_ne_empty (s t : String) (ht : t ≠ "") : s < s ++ t := by
  rw [String.lt_iff_toList_lt]
  have hd : (s ++ t).toList = s.toList ++ t.toList := String.data_append s t
  cases ht2 : t.toList with
  | nil => exact absurd (String.toList_inj.mp ht2) ht
  | cons c cs =>
    rw [hd, ht2]
    exact lex_append_cons s.toList c cs

/-- C6: the backend filter compares the date columns as strings.  First
conjunct: on strings all sharing the fixed-length `YYYY-MM-DD` format the
string order coincides with chronological order.  Second conjunct: the
half-open overlap condition is then implemented correctly (it holds iff the
numeric intervals overlap).  Third conjunct: with mixed formats, a stored
day string equal to the day of a queried ISO-8601 timestamp compares as
strictly less than that timestamp string rather than equal to it. -/
theorem text_comparison_semantics :
    (∀ y1 m1 d1 y2 m2 d2 : Nat,
        y1 < 10000 → m1 < 100 → d1 < 100 → y2 < 10000 → m2 < 100 → d2 < 100 →
        ((fmtDate y1 m1 d1 ≤ fmtDate y2 m2 d2) ↔ dateVal y1 m1 d1 ≤ dateVal y2 m2 d2)) ∧
    (∀ (r : Reservation) (ciY ciM ciD coY coM coD qaY qaM qaD qbY qbM qbD : Nat),
        ciY < 10000 → ciM < 100 → ciD < 100 → coY < 10000 → coM < 100 → coD < 100 →
        qaY < 10000 → qaM < 100 → qaD < 100 → qbY < 10000 → qbM < 100 → qbD < 100 →
        r.checkIn = fmtDate ciY ciM ciD → r.checkOut = fmtDate coY coM coD →
        (overlapCond (fmtDate qaY qaM qaD) (fmtDate qbY qbM qbD) r = true ↔
          ¬(dateVal coY coM coD ≤ dateVal qaY qaM qaD ∨
            dateVal qbY qbM qbD ≤ dateVal ciY ciM ciD))) ∧
    (∀ day : String, day < day ++ "T00:00:00.000Z" ∧ day ≠ day ++ "T00:00:00.000Z") := by
  refine ⟨?_, ?_, ?_⟩
  · intro y1 m1 d1 y2 m2 d2 hy1 hm1 hd1 hy2 hm2 hd2
    exact fmtDate_le_iff hy1 hm1 hd1 hy2 hm2 hd2
  · intro r ciY ciM ciD coY coM coD qaY qaM qaD qbY qbM qbD
    intro h1 h2 h3 h4 h5 h6 h7 h8 h9 h10 h11 h12 hci hco
    rw [overlapCond_iff, hci, hco, ge_iff_le,
      fmtDate_le_iff h4 h5 h6 h7 h8 h9, fmtDate_le_iff h10 h11 h12 h1 h2 h3]
  · intro day
    have hlt := str_lt_append_of_ne_empty day "T00:00:00.000Z" (by decide)
    exact ⟨hlt, ne_of_lt hlt⟩

/-- C6 witness: `2024-06-03` against `2024-06-04` chronologically, and the
mixed-format comparison of the day `2024-06-03` with the timestamp
`2024-06-03T00:00:00.000Z`. -/
theorem text_comparison_semantics_witness :
    ((fmtDate 2024 6 3 ≤ fmtDate 2024 6 4) ↔ dateVal 2024 6 3 ≤ dateVal 2024 6 4) ∧
    ("2024-06-03" < "2024-06-03" ++ "T00:00:00.000Z" ∧
      "2024-06-03" ≠ "2024-06-03" ++ "T00:00:00.000Z") :=
  ⟨text_comparison_semantics.1 2024 6 3 2024 6 4 (by decide) (by decide) (by decide)
      (by decide) (by decide) (by decide),
    text_comparison_semantics.2.2 "2024-06-03"⟩
